import Mathlib

/-!
Verification of the incremental CFPB-complaints load core
(`src/orchestration/cfpb_flows.py` plus the watermark store interface of
`src/utils/state.py`).

Modelling choices (shallow embedding):

* Calendar dates (ISO `YYYY-MM-DD` strings in the Python code, parsed with
  `datetime.strptime` and compared as `datetime` objects) are modelled as
  day ordinals of type `Nat`; `strptime`-then-compare on valid dates is
  exactly the ordinal comparison, and "watermark + 1 day" is `w + 1`.
* A Python exception is a `PyException`: its class name (`exnType`) and the
  message `str(e)` yields. The flow's `except Exception` catches every
  `PyException`, whatever its `exnType`.
* The collaborator `pipeline.run(extract_complaints(...))` is an opaque
  function `Nat → Nat → String → Except PyException String`: it either
  returns load info (a string) or raises.
* The per-company result dictionaries have a fixed key set with optional
  values, so a dict is a `RunResult` record whose absent keys are `none`.
* The flow's side effects (collaborator invocations, watermark writes) are
  recorded in an explicit `Effect` trace; the persisted watermark
  (`last_loaded_date`) is threaded as explicit state `Option Nat`.
* The flow returns normally in all cases (the Lean function is total and
  exception-free by construction, mirroring the `try/except` around the
  only raising call), producing a `FlowOutput` that is either the
  `skipped` dictionary or the summary dictionary.
-/

/-- A raised Python exception: its class name and the message that
`str(e)` produces. -/
structure PyException where
  exnType : String
  message : String
deriving DecidableEq, Repr

/-- Python `str(e)` on an exception: its human-readable message. -/
def pyStr (e : PyException) : String := e.message

/-- One per-company result dictionary. The success dictionary built by
`extract_and_load_complaints_task` (cfpb_flows.py lines 55-60) has keys
`company`, `status`, `date_range`, `info`; the failure dictionary built in
the flow's `except` branch (lines 118-124) has keys `company`, `status`,
`error`. Keys a dictionary lacks are `none`. -/
structure RunResult where
  company : String
  status : String
  date_range : Option String
  info : Option String
  error : Option String
deriving DecidableEq, Repr

/-- An observable side effect of one flow run: a collaborator invocation
with its arguments, or a watermark write (`update_last_loaded_date`). -/
inductive Effect where
  | invoke (date_min date_max : Nat) (company : String)
  | watermarkWrite (d : Nat)
deriving DecidableEq, Repr

/-- Whether an effect is a watermark write. -/
def Effect.isWatermarkWrite : Effect → Bool
  | .watermarkWrite _ => true
  | _ => false

/-- Whether an effect is a collaborator invocation. -/
def Effect.isInvoke : Effect → Bool
  | .invoke _ _ _ => true
  | _ => false

/-- The dictionary returned by `cfpb_complaints_incremental_flow`: either
the early-return `{"status": "skipped", "message": ..., "last_date": ...}`
(lines 95-99) or the final summary `{"date_range": ..., "total_companies":
..., "successful": ..., "failed": ..., "results": ...}` (lines 137-143).
The two dictionaries have disjoint shapes, so they are two constructors;
the `"skipped"` status string is the tag of the first constructor. -/
inductive FlowOutput where
  | skipped (message : String) (last_date : Nat)
  | summary (date_range : String) (total_companies successful failed : Nat)
      (results : List RunResult)
deriving DecidableEq, Repr

/-- The results list of an output (`[]` for the skipped dictionary, which
carries none). -/
def FlowOutput.resultsList : FlowOutput → List RunResult
  | .skipped _ _ => []
  | .summary _ _ _ _ rs => rs

/-- The `successful` count stored in a summary (0 for skipped). -/
def FlowOutput.successfulOf : FlowOutput → Nat
  | .skipped _ _ => 0
  | .summary _ _ s _ _ => s

/-- The `failed` count stored in a summary (0 for skipped). -/
def FlowOutput.failedOf : FlowOutput → Nat
  | .skipped _ _ => 0
  | .summary _ _ _ f _ => f

/-- The `total_companies` count stored in a summary (0 for skipped). -/
def FlowOutput.totalOf : FlowOutput → Nat
  | .skipped _ _ => 0
  | .summary _ t _ _ _ => t

/-- Whether the output is the summary dictionary. -/
def FlowOutput.isSummary : FlowOutput → Bool
  | .summary _ _ _ _ _ => true
  | _ => false

/-- One complete run: the returned dictionary, the watermark state after
the run, and the trace of side effects performed. -/
structure FlowRun where
  output : FlowOutput
  watermark : Option Nat
  trace : List Effect
deriving DecidableEq, Repr

/-- Modelled from the spec: `get_next_load_date` is defined in
`src/utils/state.py`, which is not among the provided sources (only its
re-export in `src/utils/__init__.py` is). Spec section 4.1: if no watermark
exists, `date_min = start_date, date_max = today`; if a watermark exists,
`date_min = watermark + 1 day, date_max = today`; no clamping beyond this.
The persisted watermark and the stable per-run `today` are passed
explicitly. -/
def get_next_load_date (watermark : Option Nat) (start_date today : Nat) :
    Nat × Nat :=
  match watermark with
  | none => (start_date, today)
  | some w => (w + 1, today)

/-- The f-string `f"{date_min} to {date_max}"` over the two dates. -/
def fmtRange (date_min date_max : Nat) : String :=
  toString date_min ++ " to " ++ toString date_max

/-- `extract_and_load_complaints_task` (cfpb_flows.py lines 24-60): run the
pipeline on the extraction source for one company; on success return the
success dictionary carrying `str(info)`, otherwise let the exception
propagate to the caller (the flow's `try`). -/
def extract_and_load_complaints_task
    (pipeline_run : Nat → Nat → String → Except PyException String)
    (date_min date_max : Nat) (company_name : String) :
    Except PyException RunResult :=
  match pipeline_run date_min date_max company_name with
  | .error e => .error e
  | .ok info =>
      .ok { company := company_name, status := "success",
            date_range := some (fmtRange date_min date_max),
            info := some info, error := none }

/-- One iteration of the flow's per-company loop (lines 107-124): call the
task inside `try`, and on any exception record the failure dictionary with
`str(e)` instead of rethrowing. -/
def loadCompany (pipeline_run : Nat → Nat → String → Except PyException String)
    (date_min date_max : Nat) (company : String) : RunResult :=
  match extract_and_load_complaints_task pipeline_run date_min date_max company with
  | .ok result => result
  | .error e =>
      { company := company, status := "failed",
        date_range := none, info := none, error := some (pyStr e) }

/-- `cfpb_complaints_incremental_flow` (cfpb_flows.py lines 68-148).
State (`last_loaded_date`) and the configuration (`COMPANIES`,
`START_DATE`) are explicit arguments; `today` is the stable current date
read inside `get_next_load_date`. Returns the output dictionary, the
watermark after the run, and the ordered trace of side effects. -/
def cfpb_complaints_incremental_flow (COMPANIES : List String)
    (START_DATE today : Nat)
    (pipeline_run : Nat → Nat → String → Except PyException String)
    (last_loaded_date : Option Nat) : FlowRun :=
  let w := get_next_load_date last_loaded_date START_DATE today
  let date_min := w.1
  let date_max := w.2
  if date_min > date_max then
    { output := .skipped "Already up to date" date_max,
      watermark := last_loaded_date, trace := [] }
  else
    let results := COMPANIES.map (loadCompany pipeline_run date_min date_max)
    let successful := results.filter (fun r => r.status == "success")
    { output := .summary (fmtRange date_min date_max) COMPANIES.length
        successful.length
        (results.filter (fun r => r.status == "failed")).length results,
      watermark :=
        if successful.length = COMPANIES.length then some date_max
        else last_loaded_date,
      trace := COMPANIES.map (Effect.invoke date_min date_max) ++
        (if successful.length = COMPANIES.length then
          [Effect.watermarkWrite date_max] else []) }

/-- A collaborator that always succeeds. -/
def okCollab : Nat → Nat → String → Except PyException String :=
  fun _ _ _ => .ok "load_info"

/-- A collaborator that always raises an `ExtractionError`. -/
def failCollab : Nat → Nat → String → Except PyException String :=
  fun _ _ _ => .error ⟨"ExtractionError", "boom"⟩

/-- A collaborator that succeeds for company `"A"` and raises for every
other company. -/
def mixedCollab : Nat → Nat → String → Except PyException String :=
  fun _ _ c => if c = "A" then .ok "load_info"
    else .error ⟨"ExtractionError", "boom"⟩

/-- A collaborator that raises an exception that is not an
`ExtractionError`. -/
def valueErrCollab : Nat → Nat → String → Except PyException String :=
  fun _ _ _ => .error ⟨"ValueError", "bad value"⟩

/-- The result shape asserted by the spec's Run Result description:
status is `success` or `failed`, `date_range` is always present, `info` is
present on success and `error` on failure. -/
def claimedResultShape (r : RunResult) : Bool :=
  (r.status == "success" || r.status == "failed") &&
    r.date_range.isSome &&
    (!(r.status == "success") || r.info.isSome) &&
    (!(r.status == "failed") || r.error.isSome)

/-- The result shape the code actually produces: a success dictionary
carries `company`, `status = "success"`, `date_range`, `info`; a failure
dictionary carries `company`, `status = "failed"`, `error` and no
`date_range` (and no `info`). -/
def actualResultShape (r : RunResult) : Bool :=
  (r.status == "success" && r.date_range.isSome && r.info.isSome &&
    r.error.isNone) ||
  (r.status == "failed" && r.date_range.isNone && r.info.isNone &&
    r.error.isSome)

example :
    cfpb_complaints_incremental_flow ["A"] 0 3 okCollab none =
      { output := .summary "0 to 3" 1 1 0
          [⟨"A", "success", some "0 to 3", some "load_info", none⟩],
        watermark := some 3,
        trace := [.invoke 0 3 "A", .watermarkWrite 3] } := by
  decide

example :
    cfpb_complaints_incremental_flow ["A"] 0 3 failCollab none =
      { output := .summary "0 to 3" 1 0 1
          [⟨"A", "failed", none, none, some "boom"⟩],
        watermark := none,
        trace := [.invoke 0 3 "A"] } := by
  decide

example :
    cfpb_complaints_incremental_flow ["A"] 0 3 okCollab (some 3) =
      { output := .skipped "Already up to date" 3,
        watermark := some 3, trace := [] } := by
  decide

/-! ### Helper lemmas -/

theorem loadCompany_cases
    (pipeline_run : Nat → Nat → String → Except PyException String)
    (a b : Nat) (c : String) :
    (∃ info, pipeline_run a b c = .ok info ∧
      loadCompany pipeline_run a b c =
        { company := c, status := "success", date_range := some (fmtRange a b),
          info := some info, error := none }) ∨
    (∃ e, pipeline_run a b c = .error e ∧
      loadCompany pipeline_run a b c =
        { company := c, status := "failed", date_range := none,
          info := none, error := some (pyStr e) }) := by
  unfold loadCompany extract_and_load_complaints_task
  cases h : pipeline_run a b c with
  | ok info => exact Or.inl ⟨info, rfl, rfl⟩
  | error e => exact Or.inr ⟨e, rfl, rfl⟩

theorem loadCompany_company
    (pipeline_run : Nat → Nat → String → Except PyException String)
    (a b : Nat) (c : String) :
    (loadCompany pipeline_run a b c).company = c := by
  rcases loadCompany_cases pipeline_run a b c with ⟨i, _, h⟩ | ⟨e, _, h⟩ <;>
    rw [h]

theorem loadCompany_status
    (pipeline_run : Nat → Nat → String → Except PyException String)
    (a b : Nat) (c : String) :
    (loadCompany pipeline_run a b c).status = "success" ∨
    (loadCompany pipeline_run a b c).status = "failed" := by
  rcases loadCompany_cases pipeline_run a b c with ⟨i, _, h⟩ | ⟨e, _, h⟩ <;>
    rw [h]
  · exact Or.inl rfl
  · exact Or.inr rfl

theorem flow_eq_of_empty (COMPANIES : List String) (s today : Nat)
    (pipeline_run : Nat → Nat → String → Except PyException String)
    (st : Option Nat)
    (h : (get_next_load_date st s today).1 > (get_next_load_date st s today).2) :
    cfpb_complaints_incremental_flow COMPANIES s today pipeline_run st =
      { output := .skipped "Already up to date" (get_next_load_date st s today).2,
        watermark := st, trace := [] } := by
  unfold cfpb_complaints_incremental_flow
  simp only [h, if_true]

theorem flow_eq_of_nonempty (COMPANIES : List String) (s today : Nat)
    (pipeline_run : Nat → Nat → String → Except PyException String)
    (st : Option Nat)
    (h : ¬ (get_next_load_date st s today).1 > (get_next_load_date st s today).2) :
    cfpb_complaints_incremental_flow COMPANIES s today pipeline_run st =
      (let date_min := (get_next_load_date st s today).1
       let date_max := (get_next_load_date st s today).2
       let results := COMPANIES.map (loadCompany pipeline_run date_min date_max)
       let successful := results.filter (fun r => r.status == "success")
       { output := .summary (fmtRange date_min date_max) COMPANIES.length
           successful.length
           (results.filter (fun r => r.status == "failed")).length results,
         watermark :=
           if successful.length = COMPANIES.length then some date_max else st,
         trace := COMPANIES.map (Effect.invoke date_min date_max) ++
           (if successful.length = COMPANIES.length then
             [Effect.watermarkWrite date_max] else []) }) := by
  unfold cfpb_complaints_incremental_flow
  simp only [h, if_false]

theorem filter_partition_length {α : Type} (p q : α → Bool) :
    ∀ l : List α,
      (∀ x ∈ l, (p x = true ∧ q x = false) ∨ (p x = false ∧ q x = true)) →
      (l.filter p).length + (l.filter q).length = l.length := by
  intro l
  induction l with
  | nil => intro _; simp
  | cons x t ih =>
    intro hx
    have ht := ih fun y hy => hx y (List.mem_cons_of_mem x hy)
    rcases hx x (List.mem_cons_self x t) with ⟨h1, h2⟩ | ⟨h1, h2⟩ <;>
      simp only [List.filter_cons, h1, h2, Bool.false_eq_true, if_true,
        if_false, List.length_cons] <;> omega

theorem loadCompany_status_bool
    (pipeline_run : Nat → Nat → String → Except PyException String)
    (a b : Nat) (c : String) :
    ((loadCompany pipeline_run a b c).status == "success") = true ∧
      ((loadCompany pipeline_run a b c).status == "failed") = false ∨
    ((loadCompany pipeline_run a b c).status == "success") = false ∧
      ((loadCompany pipeline_run a b c).status == "failed") = true := by
  rcases loadCompany_status pipeline_run a b c with h | h <;> rw [h]
  · exact Or.inl ⟨by decide, by decide⟩
  · exact Or.inr ⟨by decide, by decide⟩

theorem results_counts (pipeline_run : Nat → Nat → String → Except PyException String)
    (a b : Nat) (l : List String) :
    ((l.map (loadCompany pipeline_run a b)).filter
        (fun r => r.status == "success")).length +
      ((l.map (loadCompany pipeline_run a b)).filter
        (fun r => r.status == "failed")).length = l.length := by
  have h := filter_partition_length (fun r : RunResult => r.status == "success")
    (fun r : RunResult => r.status == "failed")
    (l.map (loadCompany pipeline_run a b)) ?_
  · rw [h, List.length_map]
  · intro x hx
    rcases List.mem_map.mp hx with ⟨c, _, rfl⟩
    exact loadCompany_status_bool pipeline_run a b c

theorem results_map_company
    (pipeline_run : Nat → Nat → String → Except PyException String)
    (a b : Nat) : ∀ l : List String,
    (l.map (loadCompany pipeline_run a b)).map RunResult.company = l := by
  intro l
  induction l with
  | nil => rfl
  | cons c t ih =>
    simp only [List.map_cons, loadCompany_company, ih]

theorem invokes_filter_isInvoke (a b : Nat) : ∀ l : List String,
    (l.map (Effect.invoke a b)).filter Effect.isInvoke =
      l.map (Effect.invoke a b) := by
  intro l
  induction l with
  | nil => rfl
  | cons c t ih => simp [Effect.isInvoke, ih]

theorem invokes_filter_isWrite (a b : Nat) : ∀ l : List String,
    (l.map (Effect.invoke a b)).filter Effect.isWatermarkWrite = [] := by
  intro l
  induction l with
  | nil => rfl
  | cons c t ih => simp [Effect.isWatermarkWrite, ih]

theorem invokes_all_tagged (a b : Nat) : ∀ l : List String,
    (l.map (Effect.invoke a b)).all
      (fun e => Effect.isInvoke e || Effect.isWatermarkWrite e) = true := by
  intro l
  induction l with
  | nil => rfl
  | cons c t ih => simp [Effect.isInvoke, ih]

theorem watermark_ne_date_max (s today : Nat) (st : Option Nat)
    (h : (get_next_load_date st s today).1 ≤ (get_next_load_date st s today).2) :
    st ≠ some (get_next_load_date st s today).2 := by
  cases st with
  | none => simp
  | some w =>
    simp only [get_next_load_date] at h ⊢
    intro hw
    rw [Option.some_inj] at hw
    omega

/-! ### Claims -/

/-- Claim C4: for every start date `s`, if no watermark exists
`get_next_load_date` returns `(s, today)`, and if a watermark `w` exists it
returns `(w + 1 day, today)`, with no further clamping. (The watermark
store is modelled from the spec; see `get_next_load_date`.) -/
theorem get_next_load_date_spec (s today w : Nat) :
    get_next_load_date none s today = (s, today) ∧
    get_next_load_date (some w) s today = (w + 1, today) :=
  ⟨rfl, rfl⟩

/-- Claim C2: when the computed window is empty (`date_min > date_max`),
the run performs zero collaborator invocations (indeed, no side effects at
all: the trace is empty), writes no watermark, and immediately returns the
`skipped` dictionary. -/
theorem empty_window_skips_without_side_effects (COMPANIES : List String)
    (s today : Nat)
    (pipeline_run : Nat → Nat → String → Except PyException String)
    (st : Option Nat)
    (h : (get_next_load_date st s today).1 > (get_next_load_date st s today).2) :
    (cfpb_complaints_incremental_flow COMPANIES s today pipeline_run st).trace
      = [] ∧
    (cfpb_complaints_incremental_flow COMPANIES s today pipeline_run st).watermark
      = st ∧
    (cfpb_complaints_incremental_flow COMPANIES s today pipeline_run st).output
      = .skipped "Already up to date" (get_next_load_date st s today).2 := by
  rw [flow_eq_of_empty COMPANIES s today pipeline_run st h]
  exact ⟨rfl, rfl, rfl⟩

theorem empty_window_skips_without_side_effects_witness :
    (get_next_load_date (some 3) 0 3).1 > (get_next_load_date (some 3) 0 3).2 ∧
    ((cfpb_complaints_incremental_flow ["A"] 0 3 okCollab (some 3)).trace = [] ∧
     (cfpb_complaints_incremental_flow ["A"] 0 3 okCollab (some 3)).watermark
       = some 3 ∧
     (cfpb_complaints_incremental_flow ["A"] 0 3 okCollab (some 3)).output
       = .skipped "Already up to date" (get_next_load_date (some 3) 0 3).2) :=
  ⟨by decide,
    empty_window_skips_without_side_effects ["A"] 0 3 okCollab (some 3)
      (by decide)⟩

/-- Claim C10: when the window is empty the value returned to the caller is
exactly the dictionary `{status: "skipped", message: "Already up to date",
last_date: date_max}` with `last_date` the computed `date_max`. It is built
by the `FlowOutput.skipped` constructor, which carries no `date_range`,
`total_companies`, `successful`/`failed` counts or `results` list, so its
shape differs from the summary dictionary (`FlowOutput.isSummary` is
`false`). -/
theorem skipped_return_shape (COMPANIES : List String) (s today : Nat)
    (pipeline_run : Nat → Nat → String → Except PyException String)
    (st : Option Nat)
    (h : (get_next_load_date st s today).1 > (get_next_load_date st s today).2) :
    (cfpb_complaints_incremental_flow COMPANIES s today pipeline_run st).output
      = FlowOutput.skipped "Already up to date" (get_next_load_date st s today).2 ∧
    (cfpb_complaints_incremental_flow COMPANIES s today
      pipeline_run st).output.isSummary = false := by
  rw [flow_eq_of_empty COMPANIES s today pipeline_run st h]
  exact ⟨rfl, rfl⟩

theorem skipped_return_shape_witness :
    (get_next_load_date (some 7) 2 7).1 > (get_next_load_date (some 7) 2 7).2 ∧
    ((cfpb_complaints_incremental_flow ["A", "B"] 2 7 okCollab (some 7)).output
        = FlowOutput.skipped "Already up to date" (get_next_load_date (some 7) 2 7).2 ∧
     (cfpb_complaints_incremental_flow ["A", "B"] 2 7 okCollab
        (some 7)).output.isSummary = false) :=
  ⟨by decide, skipped_return_shape ["A", "B"] 2 7 okCollab (some 7) (by decide)⟩

/-- Claim C1: for every run with a non-empty window, the watermark after
the run equals `some date_max` iff every configured company produced a
`success` result (`successful = total_companies`); whenever at least one
company failed, the watermark after the run equals the watermark before
the run. -/
theorem watermark_advances_iff_all_success (COMPANIES : List String)
    (s today : Nat)
    (pipeline_run : Nat → Nat → String → Except PyException String)
    (st : Option Nat)
    (h : (get_next_load_date st s today).1 ≤ (get_next_load_date st s today).2) :
    ((cfpb_complaints_incremental_flow COMPANIES s today
        pipeline_run st).watermark = some (get_next_load_date st s today).2 ↔
      (cfpb_complaints_incremental_flow COMPANIES s today
        pipeline_run st).output.successfulOf = COMPANIES.length) ∧
    ((cfpb_complaints_incremental_flow COMPANIES s today
        pipeline_run st).output.successfulOf ≠ COMPANIES.length →
      (cfpb_complaints_incremental_flow COMPANIES s today
        pipeline_run st).watermark = st) := by
  have hn : ¬ (get_next_load_date st s today).1 >
      (get_next_load_date st s today).2 := not_lt.mpr h
  have hne := watermark_ne_date_max s today st h
  rw [flow_eq_of_nonempty COMPANIES s today pipeline_run st hn]
  simp only [FlowOutput.successfulOf]
  by_cases hc :
      ((COMPANIES.map (loadCompany pipeline_run (get_next_load_date st s today).1
          (get_next_load_date st s today).2)).filter
        (fun r => r.status == "success")).length = COMPANIES.length
  · simp [hc]
  · rw [if_neg hc]
    exact ⟨⟨fun hw => (hne hw).elim, fun hx => absurd hx hc⟩, fun _ => rfl⟩

theorem watermark_advances_iff_all_success_witness :
    (get_next_load_date (some 4) 0 9).1 ≤ (get_next_load_date (some 4) 0 9).2 ∧
    (((cfpb_complaints_incremental_flow ["A", "B"] 0 9
        mixedCollab (some 4)).watermark = some (get_next_load_date (some 4) 0 9).2 ↔
      (cfpb_complaints_incremental_flow ["A", "B"] 0 9
        mixedCollab (some 4)).output.successfulOf = (["A", "B"] : List String).length) ∧
     ((cfpb_complaints_incremental_flow ["A", "B"] 0 9
        mixedCollab (some 4)).output.successfulOf ≠ (["A", "B"] : List String).length →
      (cfpb_complaints_incremental_flow ["A", "B"] 0 9
        mixedCollab (some 4)).watermark = some 4)) :=
  ⟨by decide,
    watermark_advances_iff_all_success ["A", "B"] 0 9 mixedCollab (some 4)
      (by decide)⟩

/-- Claim C6: for every run with a non-empty window, the collaborator is
invoked exactly once per configured company, in configured order, with
arguments `(date_min, date_max, company)` (the invocation part of the
trace is exactly `COMPANIES.map (Effect.invoke date_min date_max)`), and
the summary's results list carries exactly one result per company in the
same order (its `company` projections are exactly `COMPANIES`). -/
theorem one_invocation_and_result_per_company (COMPANIES : List String)
    (s today : Nat)
    (pipeline_run : Nat → Nat → String → Except PyException String)
    (st : Option Nat)
    (h : (get_next_load_date st s today).1 ≤ (get_next_load_date st s today).2) :
    (cfpb_complaints_incremental_flow COMPANIES s today
        pipeline_run st).trace.filter Effect.isInvoke =
      COMPANIES.map (Effect.invoke (get_next_load_date st s today).1
        (get_next_load_date st s today).2) ∧
    (cfpb_complaints_incremental_flow COMPANIES s today
        pipeline_run st).output.resultsList.map RunResult.company = COMPANIES := by
  have hn : ¬ (get_next_load_date st s today).1 >
      (get_next_load_date st s today).2 := not_lt.mpr h
  rw [flow_eq_of_nonempty COMPANIES s today pipeline_run st hn]
  constructor
  · simp only [List.filter_append, invokes_filter_isInvoke]
    split <;> simp [Effect.isInvoke]
  · exact results_map_company pipeline_run (get_next_load_date st s today).1
      (get_next_load_date st s today).2 COMPANIES

theorem one_invocation_and_result_per_company_witness :
    (get_next_load_date none 2 5).1 ≤ (get_next_load_date none 2 5).2 ∧
    ((cfpb_complaints_incremental_flow ["A", "B"] 2 5
        mixedCollab none).trace.filter Effect.isInvoke =
      (["A", "B"] : List String).map (Effect.invoke (get_next_load_date none 2 5).1
        (get_next_load_date none 2 5).2) ∧
     (cfpb_complaints_incremental_flow ["A", "B"] 2 5
        mixedCollab none).output.resultsList.map RunResult.company = ["A", "B"]) :=
  ⟨by decide,
    one_invocation_and_result_per_company ["A", "B"] 2 5 mixedCollab none
      (by decide)⟩

/-- Claim C7: in every run the watermark-write part of the effect trace is
`[Effect.watermarkWrite date_max]` exactly when the window is non-empty
and every company succeeded, and `[]` otherwise (so there is at most one
write, it only carries `date_max`, and it never happens on the skipped or
partial-failure paths); the whole trace is the invocations followed by the
writes (so the write only happens after all companies were attempted);
and the trace contains no effect besides collaborator invocations and
watermark writes (the coordinator mutates nothing else). -/
theorem at_most_one_watermark_write (COMPANIES : List String) (s today : Nat)
    (pipeline_run : Nat → Nat → String → Except PyException String)
    (st : Option Nat) :
    (cfpb_complaints_incremental_flow COMPANIES s today
        pipeline_run st).trace.filter Effect.isWatermarkWrite =
      (if (get_next_load_date st s today).1 ≤ (get_next_load_date st s today).2 ∧
          (cfpb_complaints_incremental_flow COMPANIES s today
            pipeline_run st).output.successfulOf = COMPANIES.length
       then [Effect.watermarkWrite (get_next_load_date st s today).2]
       else []) ∧
    (cfpb_complaints_incremental_flow COMPANIES s today pipeline_run st).trace =
      (cfpb_complaints_incremental_flow COMPANIES s today
        pipeline_run st).trace.filter Effect.isInvoke ++
      (cfpb_complaints_incremental_flow COMPANIES s today
        pipeline_run st).trace.filter Effect.isWatermarkWrite ∧
    (cfpb_complaints_incremental_flow COMPANIES s today
        pipeline_run st).trace.all
      (fun e => Effect.isInvoke e || Effect.isWatermarkWrite e) = true := by
  by_cases hw : (get_next_load_date st s today).1 >
      (get_next_load_date st s today).2
  · rw [flow_eq_of_empty COMPANIES s today pipeline_run st hw]
    have hc : ¬ ((get_next_load_date st s today).1 ≤
        (get_next_load_date st s today).2 ∧
        (FlowOutput.skipped "Already up to date"
          (get_next_load_date st s today).2).successfulOf = COMPANIES.length) :=
      fun hcc => absurd hcc.1 (not_le.mpr hw)
    rw [if_neg hc]
    exact ⟨rfl, rfl, rfl⟩
  · rw [flow_eq_of_nonempty COMPANIES s today pipeline_run st hw]
    simp only [FlowOutput.successfulOf, List.filter_append,
      invokes_filter_isInvoke, invokes_filter_isWrite, List.nil_append]
    refine ⟨?_, ?_, ?_⟩
    · by_cases hc :
          ((COMPANIES.map (loadCompany pipeline_run
              (get_next_load_date st s today).1
              (get_next_load_date st s today).2)).filter
            (fun r => r.status == "success")).length = COMPANIES.length
      · rw [if_pos hc, if_pos ⟨not_lt.mp hw, hc⟩]
        rfl
      · rw [if_neg hc, if_neg (fun hcc => absurd hcc.2 hc)]
        rfl
    · split <;> simp [Effect.isWatermarkWrite, Effect.isInvoke]
    · rw [List.all_append, invokes_all_tagged]
      split <;> rfl

/-- Claim C8: in every non-skipped Run Summary, `successful + failed =
total_companies`, `total_companies` is the length of the configured
company list, the results list has length `total_companies`, and every
result's status is `"success"` or `"failed"`. -/
theorem summary_counts_consistent (COMPANIES : List String) (s today : Nat)
    (pipeline_run : Nat → Nat → String → Except PyException String)
    (st : Option Nat)
    (h : (get_next_load_date st s today).1 ≤ (get_next_load_date st s today).2) :
    (cfpb_complaints_incremental_flow COMPANIES s today
        pipeline_run st).output.successfulOf +
      (cfpb_complaints_incremental_flow COMPANIES s today
        pipeline_run st).output.failedOf =
      (cfpb_complaints_incremental_flow COMPANIES s today
        pipeline_run st).output.totalOf ∧
    (cfpb_complaints_incremental_flow COMPANIES s today
        pipeline_run st).output.totalOf = COMPANIES.length ∧
    (cfpb_complaints_incremental_flow COMPANIES s today
        pipeline_run st).output.resultsList.length =
      (cfpb_complaints_incremental_flow COMPANIES s today
        pipeline_run st).output.totalOf ∧
    (cfpb_complaints_incremental_flow COMPANIES s today
        pipeline_run st).output.resultsList.all
      (fun r => r.status == "success" || r.status == "failed") = true := by
  have hn : ¬ (get_next_load_date st s today).1 >
      (get_next_load_date st s today).2 := not_lt.mpr h
  rw [flow_eq_of_nonempty COMPANIES s today pipeline_run st hn]
  refine ⟨?_, rfl, ?_, ?_⟩
  · exact results_counts pipeline_run (get_next_load_date st s today).1
      (get_next_load_date st s today).2 COMPANIES
  · exact List.length_map COMPANIES _
  · rw [List.all_eq_true]
    intro r hr
    rcases List.mem_map.mp hr with ⟨c, _, rfl⟩
    rcases loadCompany_status pipeline_run (get_next_load_date st s today).1
      (get_next_load_date st s today).2 c with hs | hs <;> rw [hs] <;> rfl

theorem summary_counts_consistent_witness :
    (get_next_load_date (some 4) 0 9).1 ≤ (get_next_load_date (some 4) 0 9).2 ∧
    ((cfpb_complaints_incremental_flow ["A", "B"] 0 9
        mixedCollab (some 4)).output.successfulOf +
      (cfpb_complaints_incremental_flow ["A", "B"] 0 9
        mixedCollab (some 4)).output.failedOf =
      (cfpb_complaints_incremental_flow ["A", "B"] 0 9
        mixedCollab (some 4)).output.totalOf ∧
     (cfpb_complaints_incremental_flow ["A", "B"] 0 9
        mixedCollab (some 4)).output.totalOf = (["A", "B"] : List String).length ∧
     (cfpb_complaints_incremental_flow ["A", "B"] 0 9
        mixedCollab (some 4)).output.resultsList.length =
      (cfpb_complaints_incremental_flow ["A", "B"] 0 9
        mixedCollab (some 4)).output.totalOf ∧
     (cfpb_complaints_incremental_flow ["A", "B"] 0 9
        mixedCollab (some 4)).output.resultsList.all
      (fun r => r.status == "success" || r.status == "failed") = true) :=
  ⟨by decide,
    summary_counts_consistent ["A", "B"] 0 9 mixedCollab (some 4) (by decide)⟩

theorem results_getElem_of_error
    (pipeline_run : Nat → Nat → String → Except PyException String)
    (a b : Nat) (l : List String) (i : Nat) (c : String) (e : PyException)
    (hc : l[i]? = some c) (he : pipeline_run a b c = .error e) :
    (l.map (loadCompany pipeline_run a b))[i]? =
      some { company := c, status := "failed", date_range := none,
             info := none, error := some (pyStr e) } := by
  rw [List.getElem?_map, hc, Option.map_some']
  rcases loadCompany_cases pipeline_run a b c with ⟨info, hok, _⟩ | ⟨f, herr, heq⟩
  · rw [he] at hok
    exact Except.noConfusion hok
  · rw [he] at herr
    injection herr with hef
    rw [heq, hef]

/-- Claim C3: when the collaborator raises for the company at position `i`
of the Company Set, the run records at position `i` a failed Run Result
carrying the raised error's message (`str(e)`), still produces one result
for every company of the set (the loop continues past the failure), and
returns the summary dictionary normally — the per-company error never
escapes as a thrown error (the flow is a total function into `FlowRun`,
with no error channel). -/
theorem company_failure_recorded_and_loop_continues (COMPANIES : List String)
    (s today : Nat)
    (pipeline_run : Nat → Nat → String → Except PyException String)
    (st : Option Nat) (i : Nat) (c : String) (e : PyException)
    (hc : COMPANIES[i]? = some c)
    (he : pipeline_run (get_next_load_date st s today).1
      (get_next_load_date st s today).2 c = .error e)
    (h : (get_next_load_date st s today).1 ≤ (get_next_load_date st s today).2) :
    (cfpb_complaints_incremental_flow COMPANIES s today
        pipeline_run st).output.resultsList[i]? =
      some { company := c, status := "failed", date_range := none,
             info := none, error := some (pyStr e) } ∧
    (cfpb_complaints_incremental_flow COMPANIES s today
        pipeline_run st).output.resultsList.length = COMPANIES.length ∧
    (cfpb_complaints_incremental_flow COMPANIES s today
        pipeline_run st).output.isSummary = true := by
  have hn : ¬ (get_next_load_date st s today).1 >
      (get_next_load_date st s today).2 := not_lt.mpr h
  rw [flow_eq_of_nonempty COMPANIES s today pipeline_run st hn]
  exact ⟨results_getElem_of_error pipeline_run _ _ COMPANIES i c e hc he,
    List.length_map COMPANIES _, rfl⟩

theorem company_failure_recorded_and_loop_continues_witness :
    (["A", "B"] : List String)[1]? = some "B" ∧
    mixedCollab (get_next_load_date (some 4) 0 9).1
      (get_next_load_date (some 4) 0 9).2 "B" =
      .error ⟨"ExtractionError", "boom"⟩ ∧
    (get_next_load_date (some 4) 0 9).1 ≤ (get_next_load_date (some 4) 0 9).2 ∧
    ((cfpb_complaints_incremental_flow ["A", "B"] 0 9
        mixedCollab (some 4)).output.resultsList[1]? =
      some { company := "B", status := "failed", date_range := none,
             info := none, error := some (pyStr ⟨"ExtractionError", "boom"⟩) } ∧
     (cfpb_complaints_incremental_flow ["A", "B"] 0 9
        mixedCollab (some 4)).output.resultsList.length =
       (["A", "B"] : List String).length ∧
     (cfpb_complaints_incremental_flow ["A", "B"] 0 9
        mixedCollab (some 4)).output.isSummary = true) :=
  ⟨by decide, by rfl, by decide,
    company_failure_recorded_and_loop_continues ["A", "B"] 0 9 mixedCollab
      (some 4) 1 "B" ⟨"ExtractionError", "boom"⟩ (by decide) (by rfl)
      (by decide)⟩

/-- Claim C9: the flow's `except Exception` branch absorbs a raised
exception of any class, not only `ExtractionError`: for an arbitrary
exception class name `exnType` and message `msg` raised for the company at
position `i`, the recorded failed Run Result's `error` field is the string
form of the exception (its message), every company still receives a
result, and the loop rethrows nothing (the flow returns the summary
dictionary normally). -/
theorem any_exception_absorbed (COMPANIES : List String) (s today : Nat)
    (pipeline_run : Nat → Nat → String → Except PyException String)
    (st : Option Nat) (i : Nat) (c exnType msg : String)
    (hc : COMPANIES[i]? = some c)
    (he : pipeline_run (get_next_load_date st s today).1
      (get_next_load_date st s today).2 c = .error ⟨exnType, msg⟩)
    (h : (get_next_load_date st s today).1 ≤ (get_next_load_date st s today).2) :
    (cfpb_complaints_incremental_flow COMPANIES s today
        pipeline_run st).output.resultsList[i]? =
      some { company := c, status := "failed", date_range := none,
             info := none, error := some msg } ∧
    (cfpb_complaints_incremental_flow COMPANIES s today
        pipeline_run st).output.resultsList.length = COMPANIES.length ∧
    (cfpb_complaints_incremental_flow COMPANIES s today
        pipeline_run st).output.isSummary = true := by
  have hn : ¬ (get_next_load_date st s today).1 >
      (get_next_load_date st s today).2 := not_lt.mpr h
  rw [flow_eq_of_nonempty COMPANIES s today pipeline_run st hn]
  exact ⟨results_getElem_of_error pipeline_run _ _ COMPANIES i c
      ⟨exnType, msg⟩ hc he,
    List.length_map COMPANIES _, rfl⟩

theorem any_exception_absorbed_witness :
    (["A"] : List String)[0]? = some "A" ∧
    valueErrCollab (get_next_load_date none 2 5).1
      (get_next_load_date none 2 5).2 "A" = .error ⟨"ValueError", "bad value"⟩ ∧
    (get_next_load_date none 2 5).1 ≤ (get_next_load_date none 2 5).2 ∧
    ((cfpb_complaints_incremental_flow ["A"] 2 5
        valueErrCollab none).output.resultsList[0]? =
      some { company := "A", status := "failed", date_range := none,
             info := none, error := some "bad value" } ∧
     (cfpb_complaints_incremental_flow ["A"] 2 5
        valueErrCollab none).output.resultsList.length =
       (["A"] : List String).length ∧
     (cfpb_complaints_incremental_flow ["A"] 2 5
        valueErrCollab none).output.isSummary = true) :=
  ⟨by decide, by rfl, by decide,
    any_exception_absorbed ["A"] 2 5 valueErrCollab none 0 "A" "ValueError"
      "bad value" (by decide) (by rfl) (by decide)⟩

/-- Claim C5 counterexample: the claim says every Run Result of a
non-skipped summary carries a `date_range` field, but on a run whose one
company fails (window `0 to 5`, collaborator always raising), the recorded
failed result has no `date_range` key (the `except` branch of the flow
builds only `company`, `status`, `error`), so the claimed shape
(`claimedResultShape`) is violated. -/
theorem failed_result_lacks_date_range_cex :
    (cfpb_complaints_incremental_flow ["Acme Bank"] 0 5
        failCollab none).output.resultsList.all claimedResultShape = false := by
  decide

/-- Claim C5 (amended): every Run Result in a Run Summary has the fields
`company` and `status` with status either `"success"` or `"failed"`;
a success result additionally carries `date_range` and `info` (no
`error`), while a failed result carries `error` only — it has no
`date_range` and no `info` field. -/
theorem run_result_shape (COMPANIES : List String) (s today : Nat)
    (pipeline_run : Nat → Nat → String → Except PyException String)
    (st : Option Nat) :
    (cfpb_complaints_incremental_flow COMPANIES s today
        pipeline_run st).output.resultsList.all actualResultShape = true := by
  by_cases hw : (get_next_load_date st s today).1 >
      (get_next_load_date st s today).2
  · rw [flow_eq_of_empty COMPANIES s today pipeline_run st hw]
    rfl
  · rw [flow_eq_of_nonempty COMPANIES s today pipeline_run st hw]
    rw [List.all_eq_true]
    intro r hr
    rcases List.mem_map.mp hr with ⟨c, _, rfl⟩
    rcases loadCompany_cases pipeline_run (get_next_load_date st s today).1
        (get_next_load_date st s today).2 c with
      ⟨info, _, heq⟩ | ⟨e, _, heq⟩ <;> rw [heq] <;> rfl
